import Mathlib

set_option linter.unusedVariables false

/-!
Verification development for the numerical-simulation app (`app.py`).

The app defines a two-compartment ODE vector field `model`, integrates it
with an external adaptive solver (`scipy.integrate.solve_ivp`), and draws a
phase-plane portrait for a list of initial conditions.  All numeric values
are embedded as exact rationals (`ℚ`); the external adaptive solver is not
part of the repository and is abstracted where a claim needs it (its result
object is modelled as a record, and its dense solution as an arbitrary
function).
-/

/-- The ODE right-hand side, translated from `model` in `app.py` (lines 7-11):
`ds_dt = rho * (1 - (s + m*r)/K) * s - alpha*C*s`,
`dr_dt = rho * (1 - (s + m*r)/K) * r - beta*s/K*r`.
The state `y` is the pair `(s, r)`; the time `t` is accepted but unused,
exactly as in the source.  Division is rational division (total, with
division by zero yielding 0, standing in for the source's unguarded
floating-point division). -/
def model (t : ℚ) (y : ℚ × ℚ) (rho K m alpha C beta : ℚ) : ℚ × ℚ :=
  let s := y.1
  let r := y.2
  let ds_dt := rho * (1 - (s + m * r) / K) * s - alpha * C * s
  let dr_dt := rho * (1 - (s + m * r) / K) * r - beta * s / K * r
  (ds_dt, dr_dt)

namespace App

/-- Fixed growth rate of sensitive cells (`rho_s = 0.031`, app.py line 46). -/
def rho_s : ℚ := 31 / 1000

/-- Fixed growth rate of resistant cells (`rho_r = 0.026`, app.py line 47). -/
def rho_r : ℚ := 26 / 1000

/-- Fixed carrying capacity (`k = 4800000`, app.py line 48). -/
def k : ℚ := 4800000

/-- Fixed size ratio (`m = 30`, app.py line 49). -/
def m : ℚ := 30

/-- Fixed drug effect (`alpha = 0.06`, app.py line 50). -/
def alpha : ℚ := 6 / 100

/-- Fixed cross-suppression coefficient (`beta = k*6.25*10**(-7)`,
app.py line 51). -/
def beta : ℚ := k * (625 / 10 ^ 9)

end App

/-- The inline list of annotated equilibrium points
(`equilibrium_points = [(0, k/m), (k, 0), (0, 0)]`, app.py line 97). -/
def equilibrium_points : List (ℚ × ℚ) := [(0, App.k / App.m), (App.k, 0), (0, 0)]

/-- Uniformly spaced evaluation times, translated from
`np.linspace(a, b, n)` (app.py line 60): `n` points from `a` to `b`
inclusive, point `i` being `a + (b - a) * i / (n - 1)`. -/
def linspace (a b : ℚ) (n : ℕ) : List ℚ :=
  (List.range n).map fun i : ℕ => a + (b - a) * (i : ℚ) / ((n : ℚ) - 1)

/-- The simulation time span `t_span = (0, 700)` (app.py line 58). -/
def t_span : ℚ × ℚ := (0, 700)

/-- The evaluation grid `t_eval = np.linspace(t_span[0], t_span[1], 500)`
(app.py line 60). -/
def t_eval : List ℚ := linspace t_span.1 t_span.2 500

/-- The spec's `TimeGrid`: start, end and evaluation-point count of a
uniform grid.  The app's fixed configuration is `⟨0, 700, 500⟩`. -/
structure TimeGrid where
  start : ℚ
  stop : ℚ
  count : ℕ

/-- The spec's `ModelParameters` record bundling the six scalars that
`app.py` passes positionally to `model` via `args=(rho_s, k, m, alpha, C,
beta)` (line 61). -/
structure ModelParams where
  rho : ℚ
  K : ℚ
  m : ℚ
  alpha : ℚ
  C : ℚ
  beta : ℚ

/-- The fixed parameter tuple the app passes to the solver (app.py
lines 46-53 and 61), with the drug concentration `C` as the only free
input. -/
def app_params (C : ℚ) : ModelParams :=
  ⟨App.rho_s, App.k, App.m, App.alpha, C, App.beta⟩

/-- The result object returned by the external adaptive solver
(`scipy.integrate.solve_ivp`): a success flag, the reached times and the
states.  The solver itself is a library external to the repository; only
the fields that `app.py` touches (`t`, `y`) plus the documented `success`
flag are modelled. -/
structure OdeResult where
  success : Bool
  t : List ℚ
  y : List (ℚ × ℚ)

/-- The app's result extraction, translated from `t = solution.t` and
`s, r = solution.y` (app.py lines 64-65; again line 105): the fields are
read directly, the `success` flag is never consulted. -/
def extract_results (solution : OdeResult) : List ℚ × List (ℚ × ℚ) :=
  (solution.t, solution.y)

/-- The integration pipeline around the external solver, as wired in
app.py line 61: build the uniform evaluation grid and sample the solver's
(dense) solution at those times.  The external adaptive solver is
abstracted as the function `solver` from initial state and parameters to
the dense solution `ℚ → ℚ × ℚ`; everything of the pipeline that lives in
the repository (grid construction, argument passing) is concrete. -/
def integrate (solver : ℚ × ℚ → ModelParams → ℚ → ℚ × ℚ)
    (initial_state : ℚ × ℚ) (grid : TimeGrid) (params : ModelParams) :
    List (ℚ × ℚ) :=
  (linspace grid.start grid.stop grid.count).map (solver initial_state params)

/-- Round a rational to the nearest integer, ties to even — the rounding
used by Python's fixed-point float formatting (`:.1f`) on the exactly
representable inputs that occur here. -/
def roundHalfEven (q : ℚ) : ℤ :=
  if q - ⌊q⌋ < 1 / 2 then ⌊q⌋
  else if q - ⌊q⌋ > 1 / 2 then ⌊q⌋ + 1
  else if ⌊q⌋ % 2 = 0 then ⌊q⌋ else ⌊q⌋ + 1

/-- Render a rational with exactly one decimal digit, as Python's
`f"{x:.1f}"` does for the exactly representable values the app formats. -/
def fmtOneDecimal (q : ℚ) : String :=
  let n := roundHalfEven (q * 10)
  let sign := if n < 0 then "-" else ""
  sign ++ toString (n.natAbs / 10) ++ "." ++ toString (n.natAbs % 10)

/-- Python's `str` on the numbers the app formats: an integer-valued
number prints as its integer digits (the sub-1000 branch of the helper is
only exercised on integer values in the app). -/
def pyStr (q : ℚ) : String :=
  if q.den = 1 then toString q.num else toString q

/-- The label helper, translated from `format_number` (app.py
lines 89-92): values `>= 1000` become `f"{num/1000:.1f}k"`, anything else
is `str(num)`. -/
def format_number (num : ℚ) : String :=
  if num ≥ 1000 then fmtOneDecimal (num / 1000) ++ "k"
  else pyStr num

/-- The legend label of a phase-plane trace, translated from
`f"S0={format_number(S0)}, R0={format_number(R0)}"` (app.py line 106). -/
def trace_name (S0 R0 : ℚ) : String :=
  "S0=" ++ format_number S0 ++ ", R0=" ++ format_number R0

/-- The phase-plane trajectory loop, translated from app.py lines 102-106:
`for elt in init_cond:` — one solver call and one added trace per list
element, with the legend label built by `trace_name`.  The solver call
(line 104) is abstracted as `solveTraj`, the dense external solver applied
to the fixed grid; the loop structure itself is concrete. -/
def phase_plane_traces (solveTraj : ℚ × ℚ → List (ℚ × ℚ))
    (init_cond : List (ℚ × ℚ)) : List (String × List (ℚ × ℚ)) :=
  init_cond.map fun elt => (trace_name elt.1 elt.2, solveTraj elt)

/-- The vector field as the spec writes it (§4.1): an explicit
`growth_term` shared by both components, with the cross-suppression term
parenthesised as `(beta * s / K) * r`.  Stated from the spec's words for
comparison with the source's `model`. -/
def derivative_spec_formula (t : ℚ) (state : ℚ × ℚ)
    (rho K m alpha C beta : ℚ) : ℚ × ℚ :=
  let s := state.1
  let r := state.2
  let growth_term := rho * (1 - (s + m * r) / K)
  (growth_term * s - alpha * C * s, growth_term * r - (beta * s / K) * r)

/-- Errors the spec's taxonomy prescribes (§7); no counterpart exists in
the source. -/
inductive ModelError where
  | invalidParameter : ModelError
  | integrationFailure : ModelError
deriving DecidableEq

/-- Modelled from the spec: the spec requires the vector field (missing
from the source: no validation code exists in `app.py`) to reject `K = 0`
with `InvalidParameter` before evaluating, instead of dividing by zero. -/
def derivative_checked (t : ℚ) (state : ℚ × ℚ)
    (rho K m alpha C beta : ℚ) : Except ModelError (ℚ × ℚ) :=
  if K = 0 then .error .invalidParameter
  else .ok (model t state rho K m alpha C beta)

/-- C2: for every time `t`, state `(s, r)` and parameters with `K`
nonzero, the vector field returns exactly the pair
`(rho*(1-(s+m*r)/K)*s - alpha*C*s, rho*(1-(s+m*r)/K)*r - (beta*s/K)*r)`
— the spec's formula, with no clamping of negative `s` or `r` and no other
guarded branches (the equality holds for all real inputs, negative ones
included, and the right-hand side is branch-free). -/
theorem model_eq_spec_formula (t s r rho K m alpha C beta : ℚ)
    (hK : K ≠ 0) :
    model t (s, r) rho K m alpha C beta =
      (rho * (1 - (s + m * r) / K) * s - alpha * C * s,
       rho * (1 - (s + m * r) / K) * r - (beta * s / K) * r) ∧
    model t (s, r) rho K m alpha C beta =
      derivative_spec_formula t (s, r) rho K m alpha C beta :=
  ⟨rfl, rfl⟩

/-- Witness for C2 at a concrete input with negative state components. -/
theorem model_eq_spec_formula_witness :
    (2 : ℚ) ≠ 0 ∧
    (model 3 (-1, -2) 5 2 7 11 13 17 =
      (5 * (1 - (-1 + 7 * -2) / 2) * -1 - 11 * 13 * -1,
       5 * (1 - (-1 + 7 * -2) / 2) * -2 - (17 * -1 / 2) * -2) ∧
     model 3 (-1, -2) 5 2 7 11 13 17 =
      derivative_spec_formula 3 (-1, -2) 5 2 7 11 13 17) :=
  ⟨by norm_num, model_eq_spec_formula 3 (-1) (-2) 5 2 7 11 13 17 (by norm_num)⟩

/-- C8: the vector field is time-invariant — the time argument does not
occur in the right-hand side, so evaluations at any two times agree for
every state and parameter tuple. -/
theorem model_time_invariant (t1 t2 : ℚ) (y : ℚ × ℚ)
    (rho K m alpha C beta : ℚ) :
    model t1 y rho K m alpha C beta = model t2 y rho K m alpha C beta :=
  rfl

/-- C10: the coordinate axes are invariant — with `K` nonzero, `s = 0`
forces `ds_dt = 0` for every `r`, and `r = 0` forces `dr_dt = 0` for
every `s`. -/
theorem model_axes_invariant (t rho K m alpha C beta s r : ℚ)
    (hK : K ≠ 0) :
    (model t (0, r) rho K m alpha C beta).1 = 0 ∧
    (model t (s, 0) rho K m alpha C beta).2 = 0 := by
  constructor <;> simp [model]

/-- Witness for C10 at a concrete parameter tuple. -/
theorem model_axes_invariant_witness :
    (2 : ℚ) ≠ 0 ∧
    ((model 0 (0, 17) 3 2 5 7 11 13).1 = 0 ∧
     (model 0 (19, 0) 3 2 5 7 11 13).2 = 0) :=
  ⟨by norm_num, model_axes_invariant 0 3 2 5 7 11 13 19 17 (by norm_num)⟩

/-- C3 counterexample: at `K = 0` the source's vector field does not fail
with `InvalidParameter`; it evaluates unguarded and returns an ordinary
pair (here `(0, 1)` under the total rational division of the embedding),
while the spec-modelled checked variant returns the error the spec
demands. -/
theorem model_K_zero_counterexample :
    model 0 (1, 1) 1 0 1 1 1 1 = (0, 1) ∧
    derivative_checked 0 (1, 1) 1 0 1 1 1 1 =
      .error ModelError.invalidParameter := by
  constructor
  · norm_num [model]
  · rfl

/-- C3 amended: the source performs no `K = 0` validation at all — even
at `K = 0` the vector field evaluates its formula verbatim (the divisions
by zero are unguarded; in the embedding they are total, while the
implementation propagates them silently as non-finite floats), and no
error value exists anywhere in the source. -/
theorem model_K_zero_unguarded (t s r rho m alpha C beta : ℚ) :
    model t (s, r) rho 0 m alpha C beta =
      (rho * (1 - (s + m * r) / 0) * s - alpha * C * s,
       rho * (1 - (s + m * r) / 0) * r - beta * s / 0 * r) :=
  rfl

/-- C1 counterexample: with the app's own fixed parameters (all positive,
`K = 4800000 > 0`) and drug concentration `C = 0.9`, the annotated point
`(K, 0)` is not an equilibrium: the vector field there is
`(-259200, 0) ≠ (0, 0)`. -/
theorem equilibria_counterexample :
    0 < App.rho_s ∧ 0 < App.k ∧ 0 < App.m ∧ 0 < App.alpha ∧
    0 < (9 / 10 : ℚ) ∧ 0 < App.beta ∧
    model 0 (App.k, 0) App.rho_s App.k App.m App.alpha (9 / 10) App.beta =
      (-259200, 0) ∧
    model 0 (App.k, 0) App.rho_s App.k App.m App.alpha (9 / 10) App.beta ≠
      (0, 0) := by
  norm_num [model, App.rho_s, App.k, App.m, App.alpha, App.beta]

/-- C1 amended: for every parameter tuple with `K > 0` and every time,
`(0, K/m)` and `(0, 0)` are equilibria of the vector field, but at
`(K, 0)` the field evaluates to `(-(alpha*C*K), 0)`; hence `(K, 0)` is an
equilibrium exactly when `alpha * C = 0` (no drug effect), not for all
positive `alpha` and `C`. -/
theorem equilibria_amended (t rho K m alpha C beta : ℚ) (hK : 0 < K) :
    model t (0, K / m) rho K m alpha C beta = (0, 0) ∧
    model t (0, 0) rho K m alpha C beta = (0, 0) ∧
    model t (K, 0) rho K m alpha C beta = (-(alpha * C * K), 0) ∧
    (model t (K, 0) rho K m alpha C beta = (0, 0) ↔ alpha * C = 0) := by
  have hK0 : K ≠ 0 := ne_of_gt hK
  have h3 : model t (K, 0) rho K m alpha C beta = (-(alpha * C * K), 0) := by
    simp only [model, Prod.mk.injEq]
    constructor
    · field_simp
    · ring
  refine ⟨?_, ?_, h3, ?_⟩
  · rcases eq_or_ne m 0 with hm | hm
    · subst hm
      simp [model]
    · simp only [model, Prod.mk.injEq]
      constructor
      · ring
      · field_simp
  · simp [model]
  · rw [h3]
    simp only [Prod.mk.injEq, and_true, neg_eq_zero, mul_eq_zero]
    constructor
    · rintro (h | hKeq)
      · exact h
      · exact absurd hKeq hK0
    · intro h
      exact Or.inl h

/-- Witness for the amended C1 at the app's parameters with `C = 0.9`. -/
theorem equilibria_amended_witness :
    (0 : ℚ) < App.k ∧
    (model 0 (0, App.k / App.m) App.rho_s App.k App.m App.alpha (9 / 10)
        App.beta = (0, 0) ∧
     model 0 (0, 0) App.rho_s App.k App.m App.alpha (9 / 10) App.beta =
        (0, 0) ∧
     model 0 (App.k, 0) App.rho_s App.k App.m App.alpha (9 / 10) App.beta =
        (-(App.alpha * (9 / 10) * App.k), 0) ∧
     (model 0 (App.k, 0) App.rho_s App.k App.m App.alpha (9 / 10) App.beta =
        (0, 0) ↔ App.alpha * (9 / 10) = 0)) :=
  ⟨by norm_num [App.k],
   equilibria_amended 0 App.rho_s App.k App.m App.alpha (9 / 10) App.beta
     (by norm_num [App.k])⟩

/-- Element `i` of the uniform grid is `a + (b - a) * i / (n - 1)`. -/
theorem linspace_getD (a b : ℚ) (n i : ℕ) (hi : i < n) :
    (linspace a b n).getD i 0 = a + (b - a) * (i : ℚ) / ((n : ℚ) - 1) := by
  unfold linspace
  rw [List.getD_eq_getElem?_getD, List.getElem?_map, List.getElem?_range hi]
  rfl

/-- The uniform grid is strictly increasing when `a < b` and `n ≥ 2`. -/
theorem linspace_pairwise (a b : ℚ) (n : ℕ) (h2 : 2 ≤ n) (hab : a < b) :
    List.Pairwise (· < ·) (linspace a b n) := by
  unfold linspace
  refine List.Pairwise.map _ ?_ (List.pairwise_lt_range n)
  intro i j hij
  have hn : (0 : ℚ) < (n : ℚ) - 1 := by
    have h : (2 : ℚ) ≤ (n : ℚ) := by exact_mod_cast h2
    linarith
  have hba : (0 : ℚ) < b - a := by linarith
  have hij' : (i : ℚ) < (j : ℚ) := by exact_mod_cast hij
  have key : (0 : ℚ) < (b - a) / ((n : ℚ) - 1) := div_pos hba hn
  calc a + (b - a) * (i : ℚ) / ((n : ℚ) - 1)
      = a + (i : ℚ) * ((b - a) / ((n : ℚ) - 1)) := by ring
    _ < a + (j : ℚ) * ((b - a) / ((n : ℚ) - 1)) := by
        have := mul_lt_mul_of_pos_right hij' key
        linarith
    _ = a + (b - a) * (j : ℚ) / ((n : ℚ) - 1) := by ring

/-- C6: for every successful integration over a grid with `count ≥ 2` and
`start < stop`, the trajectory has exactly `count` states, and the
evaluation times are exactly the uniform sequence from `start` to `stop`
inclusive (point `i` is `start + (stop - start) * i / (count - 1)`), in
strictly increasing order. -/
theorem trajectory_grid_aligned (solver : ℚ × ℚ → ModelParams → ℚ → ℚ × ℚ)
    (y0 : ℚ × ℚ) (grid : TimeGrid) (params : ModelParams)
    (h2 : 2 ≤ grid.count) (hlt : grid.start < grid.stop) :
    (integrate solver y0 grid params).length = grid.count ∧
    (linspace grid.start grid.stop grid.count).length = grid.count ∧
    List.Pairwise (· < ·) (linspace grid.start grid.stop grid.count) ∧
    (linspace grid.start grid.stop grid.count).getD 0 0 = grid.start ∧
    (linspace grid.start grid.stop grid.count).getD (grid.count - 1) 0 =
      grid.stop ∧
    ∀ i : Fin grid.count,
      (linspace grid.start grid.stop grid.count).getD (i : ℕ) 0 =
        grid.start + (grid.stop - grid.start) * ((i : ℕ) : ℚ) /
          ((grid.count : ℚ) - 1) := by
  have hpos : 0 < grid.count := lt_of_lt_of_le (by norm_num) h2
  have hlen : (linspace grid.start grid.stop grid.count).length =
      grid.count := by
    simp [linspace]
  have hn1 : ((grid.count : ℚ) - 1) ≠ 0 := by
    have h : (2 : ℚ) ≤ (grid.count : ℚ) := by exact_mod_cast h2
    intro hcontra
    linarith
  refine ⟨by simpa [integrate] using hlen, hlen,
    linspace_pairwise _ _ _ h2 hlt, ?_, ?_, ?_⟩
  · rw [linspace_getD _ _ _ _ hpos]
    simp
  · rw [linspace_getD _ _ _ _ (Nat.sub_lt hpos (by norm_num))]
    have hcast : (((grid.count - 1 : ℕ)) : ℚ) = (grid.count : ℚ) - 1 := by
      have := Nat.cast_sub (R := ℚ) hpos
      simpa using this
    rw [hcast]
    field_simp
  · intro i
    exact linspace_getD _ _ _ _ i.isLt

/-- Witness for C6: the app's fixed configuration — 500 points from 0 to
700 — with a concrete solver function. -/
theorem trajectory_grid_aligned_witness :
    2 ≤ (500 : ℕ) ∧ (0 : ℚ) < 700 ∧
    ((integrate (fun y _ _ => y) (1000000, 5000) ⟨0, 700, 500⟩
        (app_params (9 / 10))).length = 500 ∧
     (linspace 0 700 500).length = 500 ∧
     List.Pairwise (· < ·) (linspace 0 700 500) ∧
     (linspace 0 700 500).getD 0 0 = 0 ∧
     (linspace 0 700 500).getD (500 - 1) 0 = 700 ∧
     ∀ i : Fin 500,
       (linspace 0 700 500).getD (i : ℕ) 0 =
         0 + (700 - 0) * ((i : ℕ) : ℚ) / ((500 : ℚ) - 1)) :=
  ⟨by norm_num, by norm_num,
   trajectory_grid_aligned (fun y _ _ => y) (1000000, 5000) ⟨0, 700, 500⟩
     (app_params (9 / 10)) (by norm_num) (by norm_num)⟩

/-- C4 counterexample: a failed solver result (success flag down, only one
reached sample instead of the 500 requested) passes through the app's
result extraction unchanged — the caller receives the truncated
trajectory with no failure signal of any kind. -/
theorem extract_results_counterexample :
    (OdeResult.mk false [0] [(1000000, 5000)]).success = false ∧
    extract_results (OdeResult.mk false [0] [(1000000, 5000)]) =
      ([0], [(1000000, 5000)]) ∧
    (extract_results (OdeResult.mk false [0] [(1000000, 5000)])).2.length =
      1 ∧
    (1 : ℕ) ≠ 500 :=
  ⟨rfl, rfl, rfl, by norm_num⟩

/-- C4 amended: the app never consults the solver's success flag — result
extraction depends only on the `t` and `y` fields, returning them
verbatim whether the integration succeeded or failed, so a failure is
never surfaced to the caller. -/
theorem extract_results_ignores_success (ts : List ℚ)
    (ys : List (ℚ × ℚ)) (b b' : Bool) :
    extract_results ⟨b, ts, ys⟩ = extract_results ⟨b', ts, ys⟩ ∧
    extract_results ⟨b, ts, ys⟩ = (ts, ys) :=
  ⟨rfl, rfl⟩

/-- C5 counterexample: the phase-plane loop over the duplicate list
`[(1e6, 1e5), (1e6, 1e5)]` produces two trace entries, not one. -/
theorem phase_plane_duplicates_counterexample :
    (phase_plane_traces (fun elt => [elt])
        [(1000000, 100000), (1000000, 100000)]).length = 2 ∧
    (phase_plane_traces (fun elt => [elt])
        [(1000000, 100000), (1000000, 100000)]).length ≠ 1 := by
  constructor <;> simp [phase_plane_traces]

/-- C5 amended: the phase-plane loop has list semantics — it performs one
solver call and adds one trace per element of `init_cond`, so the number
of computed trajectories always equals the length of the input list,
duplicates included. -/
theorem phase_plane_traces_list_semantics
    (solveTraj : ℚ × ℚ → List (ℚ × ℚ)) (init_cond : List (ℚ × ℚ)) :
    (phase_plane_traces solveTraj init_cond).length = init_cond.length := by
  simp [phase_plane_traces]

/-- C7: the formatting helper renders values `≥ 1000` as the value
divided by 1000 with one decimal digit followed by `k`, and smaller
values as their plain string; in particular `format_number 999 = "999"`,
`format_number 1000 = "1.0k"` and `format_number 4800000 = "4800.0k"`.
(It is a pure function into strings, so it cannot alter the numeric data
it labels.) -/
theorem format_number_correct :
    format_number 999 = "999" ∧
    format_number 1000 = "1.0k" ∧
    format_number 4800000 = "4800.0k" ∧
    ∀ num : ℚ, format_number num =
      if num ≥ 1000 then fmtOneDecimal (num / 1000) ++ "k"
      else pyStr num :=
  ⟨by decide,
   by norm_num [format_number, fmtOneDecimal, roundHalfEven]; decide,
   by norm_num [format_number, fmtOneDecimal, roundHalfEven]; decide,
   fun num => rfl⟩

/-- C9: integration is deterministic — the pipeline is a pure function of
the initial state, the grid and the parameters (for any fixed solver), so
two runs on identical inputs return identical trajectories; no other
state enters the computation. -/
theorem integrate_deterministic (solver : ℚ × ℚ → ModelParams → ℚ → ℚ × ℚ)
    (y0 y0' : ℚ × ℚ) (grid grid' : TimeGrid) (p p' : ModelParams)
    (hy : y0 = y0') (hg : grid = grid') (hp : p = p') :
    integrate solver y0 grid p = integrate solver y0' grid' p' := by
  subst hy
  subst hg
  subst hp
  rfl

/-- Witness for C9 at the app's configuration. -/
theorem integrate_deterministic_witness :
    ((1000000, 5000) : ℚ × ℚ) = (1000000, 5000) ∧
    (⟨0, 700, 500⟩ : TimeGrid) = ⟨0, 700, 500⟩ ∧
    app_params (9 / 10) = app_params (9 / 10) ∧
    integrate (fun y _ _ => y) (1000000, 5000) ⟨0, 700, 500⟩
        (app_params (9 / 10)) =
      integrate (fun y _ _ => y) (1000000, 5000) ⟨0, 700, 500⟩
        (app_params (9 / 10)) :=
  ⟨rfl, rfl, rfl,
   integrate_deterministic (fun y _ _ => y) (1000000, 5000) (1000000, 5000)
     ⟨0, 700, 500⟩ ⟨0, 700, 500⟩ (app_params (9 / 10)) (app_params (9 / 10))
     rfl rfl rfl⟩
